import Mathlib

/-!
Verification of the `TaskScheduler` component
(`src/modules/task_scheduler.py` of AI-PERSONAL-AGENT).

The Python class wraps a `schedule.Scheduler` (the `schedule` PyPI
library).  We embed the scheduler state and the operations the
specification talks about:

* `schedule_reminder` (registration, including the `schedule` library's
  `every().day.at(t).do(f)` / `every(n).{hours,minutes,seconds}.do(f)`
  paths, `ScheduleValueError`/`ValueError` handling and `job.tag`),
* `run_pending` / the `_run_loop` polling iteration,
* `run` / `stop` lifecycle transitions,
* `get_pending_tasks` and `remove_task`.

Time is modelled as epoch seconds (`Int`, Euclidean div/mod: days are
the half-open intervals `[86400*k, 86400*(k+1))`, matching calendar
`datetime.replace` at second granularity; sub-second precision is
dropped).  A job's callable is abstracted by the one bit the scheduler
can observe: whether invoking it raises.  Exceptions are modelled by
`Except` at registration time and by an explicit `raised` flag in the
loop.  Python `set` tags are modelled as lists (each job receives a
single tag at registration).  Object identity of jobs is modelled with
a numeric `id` assigned at registration.  Thread spawning is modelled
by a counter of loop execution contexts; `atexit` registration and the
bounded `join` in `stop` have no observable effect on the modelled
state and are omitted.
-/

namespace TaskSchedulerModel

/-- Digit value of a character (only meaningful on `'0'`–`'9'`). -/
def digitVal (c : Char) : Nat := c.toNat - 48

/-- Nonempty all-digit character list, read as a base-10 natural number:
the core of Python `int()` on a sign-free string. -/
def parseDigits (l : List Char) : Option Nat :=
  if l.isEmpty then none
  else if l.all Char.isDigit then some (l.foldl (fun acc c => acc * 10 + digitVal c) 0)
  else none

/-- Python `int(s)` on a string: optional surrounding whitespace, an
optional single sign, then a nonempty digit run.  (Python additionally
accepts  underscore digit-group separators; no claim depends on them.) -/
def parsePyInt (s : String) : Option Int :=
  let l := ((s.toList.dropWhile Char.isWhitespace).reverse.dropWhile Char.isWhitespace).reverse
  match l with
  | '-' :: rest => (parseDigits rest).map (fun n => -(n : Int))
  | '+' :: rest => (parseDigits rest).map (fun n => (n : Int))
  | rest => (parseDigits rest).map (fun n => (n : Int))

/-- The `schedule` library's `Job.at` validation for a daily job:
regex `([0-2]\d:)?[0-5]\d:[0-5]\d` anchored both ends, then integer
range checks on the hour.  Returns the time of day in seconds. -/
def parseAtDays (s : String) : Option Nat :=
  match s.toList with
  | [h1, h2, ':', m1, m2] =>
    if h1.isDigit && h2.isDigit && m1.isDigit && m2.isDigit
        && digitVal h1 ≤ 5 && digitVal m1 ≤ 5 then
      let h := digitVal h1 * 10 + digitVal h2
      let m := digitVal m1 * 10 + digitVal m2
      if h ≤ 23 then some (h * 3600 + m * 60) else none
    else none
  | [h1, h2, ':', m1, m2, ':', s1, s2] =>
    if h1.isDigit && h2.isDigit && m1.isDigit && m2.isDigit && s1.isDigit && s2.isDigit
        && digitVal h1 ≤ 2 && digitVal m1 ≤ 5 && digitVal s1 ≤ 5 then
      let h := digitVal h1 * 10 + digitVal h2
      let m := digitVal m1 * 10 + digitVal m2
      let sec := digitVal s1 * 10 + digitVal s2
      if h ≤ 23 then some (h * 3600 + m * 60 + sec) else none
    else none
  | _ => none

/-- Seconds per `timedelta` unit, as used by `datetime.timedelta(**{unit: n})`. -/
def unitSeconds : String → Int
  | "seconds" => 1
  | "minutes" => 60
  | "hours" => 3600
  | "days" => 86400
  | _ => 0

/-- One scheduled job of the `schedule` library, restricted to the shapes
`TaskScheduler.schedule_reminder` builds: `interval` from `every(...)`,
`unit` one of the four strings, `atTime` the seconds-of-day of `.at(...)`
for daily jobs, `tags` from `job.tag`, and `lastRun`/`nextRun` bookkeeping.
`actionRaises` abstracts the callable: `true` when invoking it raises. -/
structure Job where
  id : Nat
  interval : Int
  unit : String
  atTime : Option Nat
  tags : List String
  lastRun : Option Int
  nextRun : Int
  actionRaises : Bool
deriving Repr, DecidableEq

/-- `Job._schedule_next_run` of the `schedule` library for the shapes in
use: `next_run = now + interval * unit`; for a daily `.at` job the time
of day is then overwritten (`datetime.replace`), and the result is pulled
back one day when the target time of day is still ahead today
(`self.at_time > now.time() and self.interval == 1`), guarded for re-runs
by `next_run - last_run > period`. -/
def computeNextRun (interval : Int) (unit : String) (atTime : Option Nat)
    (lastRun : Option Int) (now : Int) : Int :=
  let period := interval * unitSeconds unit
  let base := now + period
  match atTime with
  | none => base
  | some a =>
    let nr := (base / 86400) * 86400 + (a : Int)
    let fresh := match lastRun with
      | none => true
      | some lr => decide (period < nr - lr)
    if fresh && decide ((a : Int) > now % 86400) && decide (interval = 1)
    then nr - 86400 else nr

/-- The `schedule.Scheduler` state: its job list plus a fresh-id counter
modelling Python object identity of jobs. -/
structure PySched where
  jobs : List Job
  nextId : Nat
deriving Repr, DecidableEq

/-- Registration-time exceptions of `schedule_reminder`.  All four are
`ValueError`s in the source; `invalidCadence` is the re-raised
`ValueError` of the `try` block (malformed `HH:MM` for days, or a
non-integer interval string). -/
inductive SchedError where
  | invalidName
  | invalidTrigger
  | invalidUnit
  | invalidCadence
deriving Repr, DecidableEq

/-- The job built by `every().day.at(t).do(task)` followed by
`job.tag(task_name)`: unit `days`, interval 1, `at` time of day `a`,
initial `next_run` from `_schedule_next_run` with no `last_run`. -/
def dailyJob (idn : Nat) (task_name : String) (ar : Bool) (a : Nat) (now : Int) : Job :=
  { id := idn, interval := 1, unit := "days", atTime := some a,
    tags := [task_name], lastRun := none,
    nextRun := computeNextRun 1 "days" (some a) none now, actionRaises := ar }

/-- The job built by `every(n).{hours,minutes,seconds}.do(task)` followed
by `job.tag(task_name)`. -/
def intervalJob (idn : Nat) (task_name : String) (ar : Bool) (n : Int)
    (unit : String) (now : Int) : Job :=
  { id := idn, interval := n, unit := unit, atTime := none,
    tags := [task_name], lastRun := none,
    nextRun := computeNextRun n unit none none now, actionRaises := ar }

/-- `Job.do` appending the new job to `scheduler.jobs` (and handing the
job back to the caller), with a fresh identity. -/
def addJob (s : PySched) (j : Job) : PySched × Job :=
  ({ jobs := s.jobs ++ [j], nextId := s.nextId + 1 }, j)

/-- `TaskScheduler.schedule_reminder`: validates `task_name`,
`trigger_time` and `unit`, then builds the job via the `schedule`
library (daily `.at` job for `unit = "days"`, interval job otherwise),
tags it with `task_name` and appends it to the registry.  Errors leave
the registry untouched (every raise happens before `do` appends). -/
def schedule_reminder (s : PySched) (task_name trigger_time : String)
    (actionRaises : Bool) (unit : String) (now : Int) :
    Except SchedError (PySched × Job) :=
  if task_name = "" then .error .invalidName
  else if trigger_time = "" then .error .invalidTrigger
  else if unit ∉ ["days", "hours", "minutes", "seconds"] then .error .invalidUnit
  else if unit = "days" then
    match parseAtDays trigger_time with
    | none => .error .invalidCadence
    | some a => .ok (addJob s (dailyJob s.nextId task_name actionRaises a now))
  else
    match parsePyInt trigger_time with
    | none => .error .invalidCadence
    | some n => .ok (addJob s (intervalJob s.nextId task_name actionRaises n unit now))

/-- Stable insertion of a job into a list sorted by `nextRun`
(Python `sorted` with `Job.__lt__` comparing `next_run`). -/
def insertJob (j : Job) : List Job → List Job
  | [] => [j]
  | k :: rest => if j.nextRun ≤ k.nextRun then j :: k :: rest else k :: insertJob j rest

/-- Stable sort of the runnable jobs by `nextRun`. -/
def sortJobs (l : List Job) : List Job := l.foldr insertJob []

/-- `Job.run` of the `schedule` library: invoke the callable, then set
`last_run = now` and recompute `next_run`.  When the callable raises,
the exception propagates before the bookkeeping, so `none` is returned
and the job is left unchanged.  (No action of this repository returns
`CancelJob`, so job cancellation on return value is not modelled.) -/
def runJob (j : Job) (now : Int) : Option Job :=
  if j.actionRaises then none
  else some { j with lastRun := some now,
                     nextRun := computeNextRun j.interval j.unit j.atTime (some now) now }

/-- Run the sorted due jobs in order; stop at the first raising action.
Returns the updated copies of the jobs that ran, and whether an
exception escaped `run_pending`. -/
def runDue (now : Int) : List Job → List Job × Bool
  | [] => ([], false)
  | j :: rest =>
    match runJob j now with
    | none => ([], true)
    | some j' =>
      let p := runDue now rest
      (j' :: p.1, p.2)

/-- `Scheduler.run_pending`: select the jobs with `next_run <= now`,
sort them by `next_run`, run each in order (in-place mutation is
modelled by writing updated copies back through the job `id`).  The
Boolean records whether a job action's exception escaped. -/
def run_pending (s : PySched) (now : Int) : PySched × Bool :=
  let due := sortJobs (s.jobs.filter (fun j => decide (j.nextRun ≤ now)))
  let p := runDue now due
  ({ s with jobs := s.jobs.map (fun j =>
      match p.1.find? (fun u => u.id == j.id) with
      | some u => u
      | none => j) }, p.2)

/-- The `TaskScheduler` object: the wrapped `schedule.Scheduler`, the
`is_running` flag, and the number of live background loop execution
contexts (`scheduler_thread`). -/
structure TaskSched where
  sched : PySched
  is_running : Bool
  threads : Nat
deriving Repr, DecidableEq

/-- `TaskScheduler.run`: a no-op (warning only) when already running;
otherwise sets `is_running` and, in background mode, spawns one loop
thread.  (The `atexit.register(self.stop)` hook acts only at process
exit and is outside the modelled state.) -/
def run (t : TaskSched) (background : Bool) : TaskSched :=
  if t.is_running then t
  else if background then { t with is_running := true, threads := t.threads + 1 }
  else { t with is_running := true }

/-- `TaskScheduler.stop`: a no-op when not running; otherwise clears
`is_running` (the bounded `join` on the loop thread does not change the
modelled state). -/
def stop (t : TaskSched) : TaskSched :=
  if t.is_running then { t with is_running := false } else t

/-- One iteration of `TaskScheduler._run_loop`: when `is_running`, call
`run_pending` and sleep.  The single `try`/`except` wraps the whole
`while` loop, so an exception escaping `run_pending` is caught once,
logged, and `is_running` is set to `False` — the loop body is not
resumed. -/
def loopIter (t : TaskSched) (now : Int) : TaskSched :=
  if t.is_running then
    let p := run_pending t.sched now
    if p.2 then { t with sched := p.1, is_running := false }
    else { t with sched := p.1 }
  else t

/-- `TaskScheduler.get_pending_tasks`: `[job.tags for job in jobs]` —
one element per job, each element the job's *tag collection* (a Python
`set`), not the job's name string. -/
def get_pending_tasks (s : PySched) : List (List String) :=
  s.jobs.map (fun j => j.tags)

/-- `Scheduler.clear(tag)`: keep exactly the jobs not carrying the tag. -/
def clearTag (s : PySched) (tag : String) : PySched :=
  { s with jobs := s.jobs.filter (fun j => !(j.tags.contains tag)) }

/-- `TaskScheduler.remove_task`: clear every job tagged `task_name`;
report whether the job count shrank. -/
def remove_task (s : PySched) (task_name : String) : PySched × Bool :=
  let initial := s.jobs.length
  let s' := clearTag s task_name
  (s', decide (s'.jobs.length < initial))

/-- `TaskScheduler.clear_all`: remove every job. -/
def clear_all (s : PySched) : PySched :=
  { s with jobs := [] }

/-- The scheduler as freshly constructed by `TaskScheduler.__init__`. -/
def initialSched : TaskSched :=
  { sched := { jobs := [], nextId := 0 }, is_running := false, threads := 0 }

/-- An empty `schedule.Scheduler`. -/
def emptyPS : PySched := { jobs := [], nextId := 0 }

/-- The job produced by `schedule_reminder emptyPS "x" "5" _ "seconds"` at time 0. -/
def jobX5 : Job :=
  { id := 0, interval := 5, unit := "seconds", atTime := none,
    tags := ["x"], lastRun := none, nextRun := 5, actionRaises := false }

/-- A registry holding exactly `jobX5`. -/
def schedX : PySched := { jobs := [jobX5], nextId := 1 }

/-- Registry after registering the name `x` once on an empty scheduler. -/
def regOnce : PySched :=
  match schedule_reminder emptyPS "x" "5" false "seconds" 0 with
  | .ok p => p.1
  | .error _ => emptyPS

/-- Registry after registering the name `x` a second time. -/
def regTwice : PySched :=
  match schedule_reminder regOnce "x" "7" false "seconds" 0 with
  | .ok p => p.1
  | .error _ => regOnce

/-- Registry after registering a daily job named `Standup` at `09:00`. -/
def standupSched : PySched :=
  match schedule_reminder emptyPS "Standup" "09:00" false "days" 0 with
  | .ok p => p.1
  | .error _ => emptyPS

/-- A running scheduler holding a single due job whose action raises. -/
def raisingEx : TaskSched :=
  { sched := { jobs := [{ id := 0, interval := 1, unit := "seconds", atTime := none,
                          tags := ["boom"], lastRun := none, nextRun := 1,
                          actionRaises := true }], nextId := 1 },
    is_running := true, threads := 1 }

/-- C1, counterexample.  A running scheduler with one due job whose
action raises: the claim says the loop keeps running and `is_running`
stays `true` after the poll, but one `_run_loop` iteration leaves
`is_running = false` (and the raising job's `next_run` bookkeeping is
not advanced). -/
theorem c1_raising_job_stops_loop_counterexample :
    raisingEx.is_running = true ∧
    (loopIter raisingEx 100).is_running = false ∧
    (loopIter raisingEx 100).sched.jobs = raisingEx.sched.jobs :=
  ⟨rfl, rfl, rfl⟩

/-- C1, amended.  An exception escaping a job action is caught by the
single `try`/`except` wrapped around the whole `while` loop of
`_run_loop`: it does not propagate to the host, but it terminates the
loop — after such a poll the scheduler state has the partially updated
registry and `is_running = false`. -/
theorem c1_exception_terminates_loop (t : TaskSched) (now : Int)
    (hrun : t.is_running = true) (hraise : (run_pending t.sched now).2 = true) :
    loopIter t now =
      { t with sched := (run_pending t.sched now).1, is_running := false } := by
  simp [loopIter, hrun, hraise]

/-- C1, witness for the amended theorem at a concrete running scheduler
with a raising due job. -/
theorem c1_exception_terminates_loop_witness :
    loopIter raisingEx 100 =
      { raisingEx with sched := (run_pending raisingEx.sched 100).1,
                       is_running := false } :=
  c1_exception_terminates_loop raisingEx 100 rfl rfl

/-- C2, counterexample.  `trigger_time = "0"` parses to zero and
`"-5"` to a negative integer; the claim says both must be rejected with
`InvalidCadence` at registration time, but `schedule_reminder` accepts
both and the jobs enter the registry. -/
theorem c2_nonpositive_interval_registered_counterexample :
    (schedule_reminder emptyPS "water" "0" false "seconds" 0).isOk = true ∧
    (schedule_reminder emptyPS "water" "-5" false "minutes" 0).isOk = true :=
  ⟨rfl, rfl⟩

/-- C2, amended.  For `unit` in `{hours, minutes, seconds}` (with
nonempty name and trigger), a `trigger_time` that does not parse as an
integer fails with the re-raised `ValueError` (`InvalidCadence`) before
the job enters the registry; a `trigger_time` parsing to any integer —
positive, zero or negative — is accepted and the job is appended. -/
theorem c2_interval_parse_behavior (s : PySched) (name t u : String)
    (ar : Bool) (now : Int) (hn : name ≠ "") (ht : t ≠ "")
    (hu : u ∈ (["hours", "minutes", "seconds"] : List String)) :
    (parsePyInt t = none →
      schedule_reminder s name t ar u now = .error .invalidCadence) ∧
    (∀ n : Int, parsePyInt t = some n →
      schedule_reminder s name t ar u now =
        .ok (addJob s (intervalJob s.nextId name ar n u now))) := by
  have hd : u ≠ "days" := by rintro rfl; simp at hu
  have hmem : u ∈ (["days", "hours", "minutes", "seconds"] : List String) := by
    simp at hu ⊢
    tauto
  constructor
  · intro hp
    simp [schedule_reminder, hn, ht, hmem, hd, hp]
  · intro n hp
    simp [schedule_reminder, hn, ht, hmem, hd, hp]

/-- C2, witness: a non-integer trigger string is rejected with
`InvalidCadence`, applying the amended theorem at a concrete input. -/
theorem c2_interval_parse_behavior_witness :
    schedule_reminder emptyPS "w" "oops" false "minutes" 0 =
      .error .invalidCadence :=
  (c2_interval_parse_behavior emptyPS "w" "oops" "minutes" false 0
    (by decide) (by decide) (by decide)).1 rfl

/-- C3, counterexample.  Registering the name `x` twice: the claim says
the second registration replaces the first, but the registry afterwards
holds two jobs, both tagged `x`. -/
theorem c3_duplicate_name_kept_counterexample :
    regTwice.jobs.length = 2 ∧ regTwice.jobs.map Job.tags = [["x"], ["x"]] :=
  ⟨rfl, rfl⟩

/-- C3, amended.  `schedule_reminder` never replaces: every successful
registration appends its job to the registry, so registering under an
already-present name leaves both jobs (names are not unique). -/
theorem c3_registration_appends (s : PySched) (name t u : String)
    (ar : Bool) (now : Int) (s' : PySched) (j : Job)
    (h : schedule_reminder s name t ar u now = .ok (s', j)) :
    s'.jobs = s.jobs ++ [j] := by
  unfold schedule_reminder at h
  repeat' split at h
  all_goals first
    | exact Except.noConfusion h
    | (simp only [addJob] at h
       injection h with h1
       injection h1 with h2 h3
       subst h3
       subst h2
       rfl)

/-- C3, witness for the amended theorem: a concrete registration on the
empty registry appends exactly the created job. -/
theorem c3_registration_appends_witness :
    schedX.jobs = emptyPS.jobs ++ [jobX5] :=
  c3_registration_appends emptyPS "x" "5" "seconds" false 0 schedX jobX5 rfl

/-- C4: `get_pending_tasks` evaluated on a registry holding one job
registered under the name `Standup` returns `[["Standup"]]` — one
element per job, but each element is the job's *tag collection*
(`job.tags`, a set), not the name string the `list[str]` annotation and
docstring promise. -/
theorem c4_pending_tasks_are_tag_sets :
    get_pending_tasks standupSched = [["Standup"]] := rfl

/-- C6: for a `unit` outside the four recognized values,
`schedule_reminder` always fails (so no job is inserted — the registry
argument is returned unchanged to the caller by the exception
semantics), and with well-formed name and trigger the error is
precisely the `unit` `ValueError` of lines 54-57. -/
theorem c6_invalid_unit_rejected (s : PySched) (name t u : String)
    (ar : Bool) (now : Int)
    (hu : u ∉ (["days", "hours", "minutes", "seconds"] : List String)) :
    (∃ e, schedule_reminder s name t ar u now = .error e) ∧
    (name ≠ "" → t ≠ "" →
      schedule_reminder s name t ar u now = .error .invalidUnit) := by
  constructor
  · by_cases h1 : name = ""
    · exact ⟨.invalidName, by simp [schedule_reminder, h1]⟩
    by_cases h2 : t = ""
    · exact ⟨.invalidTrigger, by simp [schedule_reminder, h1, h2]⟩
    exact ⟨.invalidUnit, by simp [schedule_reminder, h1, h2, hu]⟩
  · intro hn ht
    simp [schedule_reminder, hn, ht, hu]

/-- C6, witness at a concrete invalid unit. -/
theorem c6_invalid_unit_rejected_witness :
    schedule_reminder emptyPS "w" "5" false "weeks" 0 = .error .invalidUnit :=
  (c6_invalid_unit_rejected emptyPS "w" "5" "weeks" false 0 (by decide)).2
    (by decide) (by decide)

/-- C8: starting an already-running scheduler is a no-op, so two
consecutive background `run` calls from a stopped scheduler with no
live loop leave exactly one loop execution context and `is_running`
set. -/
theorem c8_double_start_one_loop (t : TaskSched)
    (h1 : t.is_running = false) (h2 : t.threads = 0) :
    run (run t true) true = run t true ∧
    (run (run t true) true).threads = 1 ∧
    (run (run t true) true).is_running = true := by
  simp [run, h1, h2]

/-- C8, witness on the freshly constructed scheduler. -/
theorem c8_double_start_one_loop_witness :
    (run (run initialSched true) true).threads = 1 :=
  (c8_double_start_one_loop initialSched rfl rfl).2.1

/-- C9: `stop` on a non-running scheduler is a no-op (and in this total
model trivially raises nothing), and after two consecutive `stop` calls
`is_running` is `false` at both points; the second `stop` changes
nothing. -/
theorem c9_stop_idempotent (t : TaskSched) :
    (t.is_running = false → stop t = t) ∧
    (stop t).is_running = false ∧
    (stop (stop t)).is_running = false ∧
    stop (stop t) = stop t := by
  cases hr : t.is_running <;> simp [stop, hr]

/-- C9, witness on the freshly constructed scheduler. -/
theorem c9_stop_idempotent_witness : stop initialSched = initialSched :=
  (c9_stop_idempotent initialSched).1 rfl

/-- The initial `next_run` of a daily `.at` job is strictly after the
registration instant: tomorrow's occurrence is taken, pulled back to
today only when today's target time of day is still ahead. -/
theorem computeNextRun_daily_future (now : Int) (a : Nat) :
    now < computeNextRun 1 "days" (some a) none now := by
  have hdiv : (now + 86400) / 86400 = now / 86400 + 1 := by
    have h := Int.add_mul_ediv_right now 1 (by norm_num : (86400 : Int) ≠ 0)
    simpa using h
  have hsum : 86400 * (now / 86400) + now % 86400 = now := Int.ediv_add_emod now 86400
  have hlt : now % 86400 < 86400 := Int.emod_lt_of_pos now (by norm_num)
  have ha : (0 : Int) ≤ (a : Nat) := Int.ofNat_nonneg a
  have key : computeNextRun 1 "days" (some a) none now =
      if (a : Int) > now % 86400
      then (now + 1 * 86400) / 86400 * 86400 + (a : Int) - 86400
      else (now + 1 * 86400) / 86400 * 86400 + (a : Int) := by
    unfold computeNextRun
    have hu : unitSeconds "days" = 86400 := rfl
    rw [hu]
    by_cases hc : (a : Int) > now % 86400 <;> simp [hc]
  rw [key]
  have hdiv' : (now + 1 * 86400) / 86400 = now / 86400 + 1 := by
    rw [one_mul]; exact hdiv
  by_cases hc : (a : Int) > now % 86400
  · rw [if_pos hc, hdiv']
    linarith
  · rw [if_neg hc, hdiv']
    linarith

/-- The `timedelta` factor of each interval unit is positive. -/
theorem unitSeconds_pos (u : String)
    (hu : u ∈ (["hours", "minutes", "seconds"] : List String)) :
    0 < unitSeconds u := by
  simp at hu
  rcases hu with rfl | rfl | rfl <;> decide

/-- C5: for every valid `(unit, trigger_time)` pair — `days` with a
time string passing the library's `at` validation, or an interval unit
with a trigger parsing to a positive integer — `schedule_reminder`
succeeds and the registered job's initial `next_run` is strictly after
the registration instant. -/
theorem c5_valid_registration_future (s : PySched) (name t u : String)
    (ar : Bool) (now : Int) (hn : name ≠ "") (ht : t ≠ "")
    (hvalid : (u = "days" ∧ ∃ a, parseAtDays t = some a) ∨
      (u ∈ (["hours", "minutes", "seconds"] : List String) ∧
        ∃ n : Int, parsePyInt t = some n ∧ 0 < n)) :
    ∃ s' j, schedule_reminder s name t ar u now = .ok (s', j) ∧
      now < j.nextRun := by
  rcases hvalid with ⟨rfl, a, hpa⟩ | ⟨hu, n, hpn, hpos⟩
  · refine ⟨(addJob s (dailyJob s.nextId name ar a now)).1,
      dailyJob s.nextId name ar a now, ?_, ?_⟩
    · simp [schedule_reminder, hn, ht, hpa, addJob]
    · exact computeNextRun_daily_future now a
  · have hd : u ≠ "days" := by rintro rfl; simp at hu
    have hmem : u ∈ (["days", "hours", "minutes", "seconds"] : List String) := by
      simp at hu ⊢
      tauto
    refine ⟨(addJob s (intervalJob s.nextId name ar n u now)).1,
      intervalJob s.nextId name ar n u now, ?_, ?_⟩
    · simp [schedule_reminder, hn, ht, hmem, hd, hpn, addJob]
    · show now < now + n * unitSeconds u
      have hup := unitSeconds_pos u hu
      nlinarith

/-- C5, witness: a daily job at `10:30` registered at midnight is
accepted, applying the theorem at concrete inputs. -/
theorem c5_valid_registration_future_witness :
    (schedule_reminder emptyPS "brush" "10:30" false "days" 0).isOk = true := by
  obtain ⟨s', j, hj, -⟩ :=
    c5_valid_registration_future emptyPS "brush" "10:30" "days" false 0
      (by decide) (by decide) (Or.inl ⟨rfl, 37800, rfl⟩)
  rw [hj]
  rfl

/-- C7: after a successful registration of `name`, removing `name`
leaves an introspection snapshot none of whose entries carries the
name; and removing a name carried by no job returns `false` and leaves
the registry (in particular its size) unchanged. -/
theorem c7_schedule_remove_roundtrip (s : PySched) (name t u : String)
    (ar : Bool) (now : Int) (s' : PySched) (j : Job)
    (hadd : schedule_reminder s name t ar u now = .ok (s', j))
    (s₂ : PySched) (hnone : ∀ k ∈ s₂.jobs, k.tags.contains name = false) :
    (∀ tg ∈ get_pending_tasks (remove_task s' name).1, tg.contains name = false) ∧
    (remove_task s₂ name).2 = false ∧
    (remove_task s₂ name).1 = s₂ := by
  have hfil : s₂.jobs.filter (fun k => !(k.tags.contains name)) = s₂.jobs := by
    rw [List.filter_eq_self]
    intro k hk
    simpa using hnone k hk
  refine ⟨?_, ?_, ?_⟩
  · intro tg htg
    simp only [get_pending_tasks, remove_task, clearTag, List.mem_map] at htg
    obtain ⟨k, hk, rfl⟩ := htg
    have hp := (List.mem_filter.mp hk).2
    simpa using hp
  · simp only [remove_task, clearTag, hfil]
    simp
  · simp only [remove_task, clearTag, hfil]

/-- C7, witness: registering `x` on the empty registry and probing
removal of the absent name on the empty registry. -/
theorem c7_schedule_remove_roundtrip_witness :
    (remove_task emptyPS "x").2 = false :=
  (c7_schedule_remove_roundtrip emptyPS "x" "5" "seconds" false 0 schedX jobX5 rfl
    emptyPS (by intro k hk; cases hk)).2.1

/-- C10: `remove_task` removes, in one call, every job carrying the
given name among its tags, and returns `true` exactly when at least one
such job was present beforehand. -/
theorem c10_remove_clears_all_tagged (s : PySched) (name : String) :
    (∀ k ∈ (remove_task s name).1.jobs, k.tags.contains name = false) ∧
    ((remove_task s name).2 = true ↔ ∃ k ∈ s.jobs, k.tags.contains name = true) := by
  constructor
  · intro k hk
    have hp := (List.mem_filter.mp hk).2
    simpa using hp
  · simp only [remove_task, clearTag, decide_eq_true_eq]
    rw [List.length_filter_lt_length_iff_exists]
    simp

/-- C10, witness: on a registry holding one job tagged `x`, removal of
`x` reports `true`. -/
theorem c10_remove_clears_all_tagged_witness :
    (remove_task schedX "x").2 = true :=
  (c10_remove_clears_all_tagged schedX "x").2.mpr ⟨jobX5, by decide, by decide⟩

end TaskSchedulerModel
